import Mathlib

/-!
Shallow embedding of the SmartBookQA retrieval-and-answering pipeline
(src/modules/rag_pipeline.py, src/modules/llm_handler.py,
src/modules/vectorstore.py) and proofs about the claims of its
specification.

Machine reals of the source (similarity scores, embedding coordinates,
distances) are modelled as rationals; Python strings as Lean strings
(both sequences of Unicode code points).
-/

namespace SmartBookQA

/-! ### Python string primitives used by the source -/

/-- Model of Python truthiness of a string: `not s` holds exactly when `s`
is empty. -/
def pyFalsyStr (s : String) : Bool :=
  s.data.isEmpty

/-- Model of Python `str.strip()` with no argument: drop leading and
trailing whitespace characters. -/
def pyStrip (s : String) : String :=
  String.mk (((s.data.dropWhile Char.isWhitespace).reverse.dropWhile Char.isWhitespace).reverse)

/-- Model of the guard `not question or not question.strip()` at
rag_pipeline.py line 54: the question is empty or whitespace-only. -/
def pyBlank (s : String) : Bool :=
  pyFalsyStr s || pyFalsyStr (pyStrip s)

/-- Model of Python `len` on a string: number of code points. -/
def pyLen (s : String) : Nat :=
  s.data.length

/-- Model of Python slicing `s[:n]`: the first `n` code points. -/
def pyTake (n : Nat) (s : String) : String :=
  String.mk (s.data.take n)

/-- Model of Python truthiness of `Optional[str]`: falsy iff `None` or
the empty string. -/
def pyFalsyOpt : Option String → Bool
  | none => true
  | some s => pyFalsyStr s

/-! ### Python `round(x, 3)` on exact values

Python rounds to the nearest multiple of `10^-3`, ties to even
(banker's rounding). On the exact rational values relevant here this is
`roundHalfEven (x * 1000) / 1000`. -/

/-- Round a rational to the nearest integer, ties to the even integer
(uses the executable `Rat.floor`, which agrees with `Int.floor`). -/
def roundHalfEven (x : ℚ) : ℤ :=
  let f := x.floor
  if x - f < 1/2 then f
  else if 1/2 < x - f then f + 1
  else if f % 2 = 0 then f else f + 1

/-- Model of Python `round(x, 3)`. -/
def pyRound3 (x : ℚ) : ℚ :=
  (roundHalfEven (x * 1000) : ℚ) / 1000

/-! ### Data model of the pipeline (rag_pipeline.py) -/

/-- A string-to-string metadata mapping, as an association list. -/
abbrev Metadata := List (String × String)

/-- One formatted result of `VectorStore.search` as consumed by
`RAGPipeline.query` (vectorstore.py lines 136-141): the value under the
key "distance" may be Python `None`, modelled as `Option.none`. -/
structure SearchResult where
  document : String
  distance : Option ℚ
  metadata : Metadata
  id : Option String
deriving DecidableEq

/-- One element of the "sources" list built by `RAGPipeline.query`
(rag_pipeline.py lines 102-106). -/
structure SourcePassage where
  text : String
  similarity : ℚ
  metadata : Metadata
deriving DecidableEq

/-- The dictionary returned by `RAGPipeline.query`: answer, sources and
a metadata mapping whose values (num_sources, top_k) are integers. -/
structure QueryResult where
  answer : String
  sources : List SourcePassage
  metadata : List (String × Nat)
deriving DecidableEq

/-- Association-list lookup (leftmost binding wins), the model of Python
dictionary access on the mappings used here. -/
def alookup {α : Type} (key : String) : List (String × α) → Option α
  | [] => none
  | p :: rest => if p.1 = key then some p.2 else alookup key rest

/-- The providers reached from one `RAGPipeline.query` call, in the
order the source invokes them. Each is invoked at most once per call, so
its behaviour on that call is a single outcome; an `Except.error e`
models the call raising an exception whose `str` is `e`. -/
structure QueryEnv where
  embedResult : Except String (Option (List (List ℚ)))
  searchResult : Except String (List SearchResult)
  generateResult : Except String (Option String)

/-- Which collaborator calls a `query` run performed, in order. -/
inductive PipelineCall where
  | embed
  | search
  | generate
deriving DecidableEq

/-- The result built by the `except` clause at rag_pipeline.py lines
135-141: the exception message in the answer, no sources, no metadata. -/
def errorResult (e : String) : QueryResult :=
  { answer := "An error occurred: " ++ e, sources := [], metadata := [] }

/-- The source passage built from one search result at rag_pipeline.py
lines 93-106: similarity `1 - distance` (`0` when the distance is
`None`) rounded to 3 decimals, text truncated to 200 characters with an
ellipsis marker appended when truncation happened. -/
def mkSourcePassage (r : SearchResult) : SourcePassage :=
  let similarity : ℚ := match r.distance with
    | some d => 1 - d
    | none => 0
  { text := if pyLen r.document > 200 then pyTake 200 r.document ++ "..." else r.document
  , similarity := pyRound3 similarity
  , metadata := r.metadata }

/-- The context block for rank `i` (1-based), rag_pipeline.py line 101. -/
def contextPart (i : Nat) (r : SearchResult) : String :=
  "[Source " ++ toString i ++ "] " ++ r.document

/-- The joined context string, rag_pipeline.py line 108. -/
def joinedContext (rs : List SearchResult) : String :=
  String.intercalate "\n\n" (rs.enum.map (fun p => contextPart (p.1 + 1) p.2))

/-- Shallow embedding of `RAGPipeline.query` (rag_pipeline.py lines
39-141). Returns the result dictionary together with the list of
collaborator calls performed. The Python `try` around steps 1-5 is the
`Except.error` branches: every raised exception is mapped to
`errorResult`, so the function is total - `query` never raises. -/
def query (env : QueryEnv) (question : String) (top_k : Nat) : QueryResult × List PipelineCall :=
  if pyBlank question then
    ({ answer := "Please provide a valid question.", sources := [], metadata := [] }, [])
  else
    match env.embedResult with
    | .error e => (errorResult e, [.embed])
    | .ok qe =>
      if qe.getD [] |>.isEmpty then
        ({ answer := "Error generating query embedding.", sources := [], metadata := [] },
         [.embed])
      else
        match env.searchResult with
        | .error e => (errorResult e, [.embed, .search])
        | .ok rs =>
          if rs.isEmpty then
            ({ answer := "No relevant documents found in the knowledge base. Please upload and process PDFs first."
             , sources := [], metadata := [] }, [.embed, .search])
          else
            let sources := rs.map mkSourcePassage
            match env.generateResult with
            | .error e => (errorResult e, [.embed, .search, .generate])
            | .ok ans =>
              if pyFalsyOpt ans then
                ({ answer := "Error generating answer. Please try again."
                 , sources := sources, metadata := [] }, [.embed, .search, .generate])
              else
                ({ answer := ans.getD ""
                 , sources := sources
                 , metadata := [("num_sources", sources.length), ("top_k", top_k)] },
                 [.embed, .search, .generate])

/-! ### LLM handler (llm_handler.py) -/

/-- The backend kinds the handler can record in `self.llm_type`. -/
inductive LLMType where
  | openai
  | ollama
  | transformers
deriving DecidableEq

/-- The mutable fields of an `LLMHandler` instance that
`generate_answer` reads: whether the OpenAI path is requested, whether
`self.openai_client` and `self.local_llm` are non-`None`, and the
recorded backend kind. -/
structure LLMHandler where
  use_openai : Bool
  openai_client : Bool
  local_llm : Bool
  llm_type : Option LLMType
deriving DecidableEq

/-- Behaviour of the backends on one `generate_answer` call, each as a
function of the prompt it is sent: the OpenAI chat completion content,
the Ollama completion, and the transformers generated text. An
`Except.error e` models the backend call raising an exception whose
`str` is `e`. -/
structure LLMEnv where
  openaiContent : String → Except String String
  ollamaResult : String → Except String String
  transformersGenerated : String → Except String String

/-- The prompt literal of `_generate_openai_answer`
(llm_handler.py lines 149-157). -/
def openaiPrompt (question context : String) : String :=
  "Based on the following context, answer the question. \nIf the answer is not in the context, say \"I don\u0027t have enough information to answer this question based on the provided context.\"\n\nContext:\n" ++ context ++ "\n\nQuestion: " ++ question ++ "\n\nAnswer:"

/-- The prompt literal of `_generate_local_answer`
(llm_handler.py lines 181-188). -/
def localPrompt (question context : String) : String :=
  "Based on the following context, answer the question.\n\nContext:\n" ++ context ++ "\n\nQuestion: " ++ question ++ "\n\nAnswer:"

/-- The instruction text (everything before the Context block) of the
OpenAI prompt. -/
def openaiInstruction : String :=
  "Based on the following context, answer the question. \nIf the answer is not in the context, say \"I don\u0027t have enough information to answer this question based on the provided context.\""

/-- The instruction text (everything before the Context block) of the
local prompt. -/
def localInstruction : String :=
  "Based on the following context, answer the question."

/-- The refusal-phrase directive present only in the OpenAI prompt. -/
def refusalDirective : String :=
  "If the answer is not in the context, say \"I don\u0027t have enough information to answer this question based on the provided context.\""

/-- The part of both prompts after the instruction text. -/
def promptTail (question context : String) : String :=
  "\n\nContext:\n" ++ context ++ "\n\nQuestion: " ++ question ++ "\n\nAnswer:"

/-- Shallow embedding of `LLMHandler._generate_openai_answer`
(llm_handler.py lines 142-172): a failing API call re-raises after
logging; a successful one returns the stripped message content. -/
def generateOpenaiAnswer (env : LLMEnv) (question context : String) : Except String String :=
  match env.openaiContent (openaiPrompt question context) with
  | .error e => .error e
  | .ok content => .ok (pyStrip content)

/-- Model of `generated_text.split("Answer:")[-1]`
(llm_handler.py line 209). -/
def lastAfterAnswerCue (s : String) : String :=
  (s.splitOn "Answer:").getLastD ""

/-- Shallow embedding of `LLMHandler._generate_local_answer`
(llm_handler.py lines 174-216): each local backend degrades to a fixed
diagnostic string on failure and never raises. -/
def generateLocalAnswer (h : LLMHandler) (env : LLMEnv) (question context : String) : String :=
  if h.llm_type = some LLMType.ollama then
    match env.ollamaResult (localPrompt question context) with
    | .ok r => pyStrip r
    | .error _ => "Error generating answer with local LLM."
  else if h.llm_type = some LLMType.transformers then
    match env.transformersGenerated (localPrompt question context) with
    | .ok generated => pyStrip (lastAfterAnswerCue generated)
    | .error _ => "Error generating answer with local LLM."
  else
    "No local LLM available."

/-- Shallow embedding of `LLMHandler.generate_answer`
(llm_handler.py lines 110-140): empty question or context returns
`None`; the OpenAI path is taken when requested and a client exists,
and any exception it raises is caught here, returning `None`; otherwise
the local path is taken when a local model exists. -/
def generate_answer (h : LLMHandler) (env : LLMEnv) (question context : String) : Option String :=
  if pyFalsyStr question || pyFalsyStr context then none
  else if h.use_openai && h.openai_client then
    match generateOpenaiAnswer env question context with
    | .error _ => none
    | .ok a => some a
  else if h.local_llm then
    some (generateLocalAnswer h env question context)
  else
    none

/-! ### Vector store (vectorstore.py) over a model of the ChromaDB client

The ChromaDB client (an external collaborator) is modelled as a mapping
from collection names to record lists. `delete_collection` on a missing
name raises; `get_or_create_collection` is total; `add` appends the
given records to the named collection. -/

/-- One record of a ChromaDB collection. -/
structure ChromaRecord where
  id : String
  embedding : List ℚ
  document : String
  metadata : Metadata
deriving DecidableEq

/-- Model of the ChromaDB persistent client: the named collections and
their contents. -/
structure ChromaClient where
  collections : List (String × List ChromaRecord)
deriving DecidableEq

/-- The state of a `VectorStore` instance: its client and the name of
its collection (`self.collection` always denotes the collection of that
name). -/
structure VectorStore where
  client : ChromaClient
  collection_name : String
deriving DecidableEq

/-- Remove every binding of `key` from an association list. -/
def removeKey {α : Type} (key : String) : List (String × α) → List (String × α)
  | [] => []
  | p :: rest => if p.1 = key then removeKey key rest else p :: removeKey key rest

/-- Replace the contents bound to `key` in an association list. -/
def setKey {α : Type} (key : String) (v : α) : List (String × α) → List (String × α)
  | [] => []
  | p :: rest => if p.1 = key then (key, v) :: setKey key v rest else p :: setKey key v rest

/-- Model of `client.delete_collection(name)`: raises when no such
collection exists, else removes it. -/
def chromaDeleteCollection (c : ChromaClient) (name : String) : Except String ChromaClient :=
  match alookup name c.collections with
  | none => .error ("Collection " ++ name ++ " does not exist.")
  | some _ => .ok ⟨removeKey name c.collections⟩

/-- Model of `client.get_or_create_collection(name)`: creates an empty
collection when the name is absent. -/
def chromaGetOrCreate (c : ChromaClient) (name : String) : ChromaClient :=
  match alookup name c.collections with
  | some _ => c
  | none => ⟨c.collections ++ [(name, [])]⟩

/-- Zip parallel id/embedding/document/metadata lists into records. -/
def zipRecords : List String → List (List ℚ) → List String → List Metadata → List ChromaRecord
  | i :: is, e :: es, d :: ds, m :: ms => ⟨i, e, d, m⟩ :: zipRecords is es ds ms
  | _, _, _, _ => []

/-- Model of `collection.add(...)`: appends the records to the named
collection (raises when the collection is gone). -/
def chromaCollectionAdd (c : ChromaClient) (name : String) (ids : List String)
    (embs : List (List ℚ)) (docs : List String) (mds : List Metadata) :
    Except String ChromaClient :=
  match alookup name c.collections with
  | none => .error ("Collection " ++ name ++ " does not exist.")
  | some recs => .ok ⟨setKey name (recs ++ zipRecords ids embs docs mds) c.collections⟩

/-- Shallow embedding of `VectorStore.get_collection_count`
(vectorstore.py lines 149-159): any exception yields 0. -/
def get_collection_count (s : VectorStore) : Nat :=
  match alookup s.collection_name s.client.collections with
  | some recs => recs.length
  | none => 0

/-- Shallow embedding of `VectorStore.clear_collection`
(vectorstore.py lines 161-177): delete the named collection, recreate
it, return `True`; any exception yields `False`. -/
def clear_collection (s : VectorStore) : VectorStore × Bool :=
  match chromaDeleteCollection s.client s.collection_name with
  | .error _ => (s, false)
  | .ok c1 => ({ s with client := chromaGetOrCreate c1 s.collection_name }, true)

/-- The ids generated by `VectorStore.add_documents` when `ids` is
omitted (vectorstore.py line 88): `doc_0 .. doc_{n-1}`, a function of
the batch size only. -/
def defaultIds (n : Nat) : List String :=
  (List.range n).map (fun i => "doc_" ++ toString i)

/-- The ids generated by `RAGPipeline.add_documents_to_knowledge_base`
(rag_pipeline.py lines 167-169): `doc_{existing_count + i}`, seeded from
the current collection count. -/
def pipelineIds (existing_count n : Nat) : List String :=
  (List.range n).map (fun i => "doc_" ++ toString (existing_count + i))

/-- The metadata synthesized by `VectorStore.add_documents` when
`metadatas` is omitted (vectorstore.py line 92). -/
def defaultMetadatas (texts : List String) : List Metadata :=
  texts.map (fun t => [("text", pyTake 100 t)])

/-- Shallow embedding of `VectorStore.add_documents`
(vectorstore.py lines 58-106). -/
def add_documents (s : VectorStore) (texts : List String) (embeddings : List (List ℚ))
    (metadatas : Option (List Metadata)) (ids : Option (List String)) :
    VectorStore × Bool :=
  if texts.isEmpty || embeddings.isEmpty then (s, false)
  else if texts.length ≠ embeddings.length then (s, false)
  else
    let ids2 := ids.getD (defaultIds texts.length)
    let mds := metadatas.getD (defaultMetadatas texts)
    match chromaCollectionAdd s.client s.collection_name ids2 embeddings texts mds with
    | .error _ => (s, false)
    | .ok c2 => ({ s with client := c2 }, true)

/-- Behaviour of the embedding provider on one ingestion call. -/
structure IngestEnv where
  embedResult : Except String (Option (List (List ℚ)))

/-- Shallow embedding of `RAGPipeline.add_documents_to_knowledge_base`
(rag_pipeline.py lines 143-183): embed the texts, seed ids from the
current collection count, delegate to `add_documents`; any exception
yields `False`. -/
def add_documents_to_knowledge_base (env : IngestEnv) (s : VectorStore)
    (texts : List String) (metadatas : Option (List Metadata)) :
    VectorStore × Bool :=
  match env.embedResult with
  | .error _ => (s, false)
  | .ok eo =>
    match eo with
    | none => (s, false)
    | some embs =>
      if embs.isEmpty then (s, false)
      else
        let existing_count := get_collection_count s
        let ids := pipelineIds existing_count texts.length
        add_documents s texts embs metadatas (some ids)

/-! ### Supporting lemmas -/

theorem ratFloor_eq_intFloor (x : ℚ) : x.floor = ⌊x⌋ :=
  (Rat.floor_def' x).trans (Rat.floor_def (q := x)).symm

theorem floor_le_roundHalfEven (x : ℚ) : ⌊x⌋ ≤ roundHalfEven x := by
  unfold roundHalfEven
  rw [ratFloor_eq_intFloor]
  dsimp only
  split
  · exact le_refl _
  · split
    · omega
    · split
      · exact le_refl _
      · omega

theorem roundHalfEven_le_ceil (x : ℚ) : roundHalfEven x ≤ ⌈x⌉ := by
  unfold roundHalfEven
  rw [ratFloor_eq_intFloor]
  dsimp only
  have hfc : ⌊x⌋ ≤ ⌈x⌉ := Int.floor_le_ceil x
  have hlt : ∀ h : (1:ℚ)/2 ≤ x - ⌊x⌋, ⌊x⌋ + 1 ≤ ⌈x⌉ := by
    intro h
    rw [Int.add_one_le_iff, Int.lt_ceil]
    have h0 : (0:ℚ) < x - ⌊x⌋ := lt_of_lt_of_le (by norm_num) h
    linarith
  split
  · exact hfc
  · rename_i h1
    push_neg at h1
    split
    · exact hlt (le_of_lt (by linarith))
    · rename_i h2
      push_neg at h2
      split
      · exact hfc
      · exact hlt h1

theorem pyRound3_nonneg_of_nonneg {x : ℚ} (hx : 0 ≤ x) : 0 ≤ pyRound3 x := by
  unfold pyRound3
  have h0 : (0:ℤ) ≤ ⌊x * 1000⌋ := Int.le_floor.mpr (by push_cast; positivity)
  have h1 : (0:ℤ) ≤ roundHalfEven (x * 1000) :=
    le_trans h0 (floor_le_roundHalfEven _)
  positivity

theorem pyRound3_le_one_of_le_one {x : ℚ} (hx : x ≤ 1) : pyRound3 x ≤ 1 := by
  unfold pyRound3
  have h0 : ⌈x * 1000⌉ ≤ (1000:ℤ) := Int.ceil_le.mpr (by push_cast; linarith)
  have h1 : roundHalfEven (x * 1000) ≤ (1000:ℤ) :=
    le_trans (roundHalfEven_le_ceil _) h0
  rw [div_le_one (by norm_num)]
  exact_mod_cast h1

theorem roundHalfEven_intCast (z : ℤ) : roundHalfEven (z : ℚ) = z := by
  unfold roundHalfEven
  rw [ratFloor_eq_intFloor, Int.floor_intCast]
  dsimp only
  rw [sub_self]
  norm_num

theorem pyRound3_zero : pyRound3 0 = 0 := by
  have h : ((0:ℚ) * 1000) = ((0:ℤ) : ℚ) := by norm_num
  rw [pyRound3, h, roundHalfEven_intCast]
  norm_num

theorem pyRound3_neg_one : pyRound3 (1 - 2) = -1 := by
  have h : (((1:ℚ) - 2) * 1000) = ((-1000:ℤ) : ℚ) := by norm_num
  rw [pyRound3, h, roundHalfEven_intCast]
  norm_num

theorem pyRound3_one_sub_one : pyRound3 (1 - 1) = 0 := by
  have h : ((1:ℚ) - 1) = 0 := by norm_num
  rw [h, pyRound3_zero]

/-! ### Claim theorems -/

/-- C1: for every non-blank question and every behaviour of the embedding
provider, the vector store and the answer provider, `query` is a total
function (in this embedding no exception escapes it by construction),
and an exception raised at whichever step runs first is caught at the
pipeline boundary: the returned result is `errorResult` of the
exception's message, whose answer carries that message and whose sources
list is empty. -/
theorem c1_query_catches_exceptions (env : QueryEnv) (q : String) (k : Nat)
    (hq : pyBlank q = false) :
    (∀ e, env.embedResult = .error e →
      query env q k = (errorResult e, [PipelineCall.embed])) ∧
    (∀ e qe, env.embedResult = .ok qe → (qe.getD []).isEmpty = false →
      env.searchResult = .error e →
      query env q k = (errorResult e, [PipelineCall.embed, PipelineCall.search])) ∧
    (∀ e qe rs, env.embedResult = .ok qe → (qe.getD []).isEmpty = false →
      env.searchResult = .ok rs → rs.isEmpty = false →
      env.generateResult = .error e →
      query env q k =
        (errorResult e, [PipelineCall.embed, PipelineCall.search, PipelineCall.generate])) ∧
    (∀ e, (errorResult e).answer = "An error occurred: " ++ e ∧ (errorResult e).sources = []) := by
  refine ⟨?_, ?_, ?_, ?_⟩
  · intro e he
    simp [query, hq, he]
  · intro e qe he hne hs
    simp [query, hq, he, hne, hs]
  · intro e qe rs he hne hs hrne hg
    simp [query, hq, he, hne, hs, hrne, hg]
  · intro e
    exact ⟨rfl, rfl⟩

/-- Witness for C1 at a concrete environment whose embedding provider
raises an exception with message "boom". -/
theorem c1_query_catches_exceptions_witness :
    pyBlank "q" = false ∧
    query ⟨Except.error "boom", Except.ok [], Except.ok none⟩ "q" 5 =
      (errorResult "boom", [PipelineCall.embed]) :=
  ⟨by decide,
   (c1_query_catches_exceptions ⟨Except.error "boom", Except.ok [], Except.ok none⟩
     "q" 5 (by decide)).1 "boom" rfl⟩

/-- C2: for every non-blank question, when the embedding step succeeds
and the vector-store search returns the empty result list, `query`
returns the fixed "no documents" diagnostic with empty sources, and the
answer provider is not among the collaborators invoked on that call. -/
theorem c2_empty_search_diagnostic (env : QueryEnv) (q : String) (k : Nat)
    (hq : pyBlank q = false) (qe : Option (List (List ℚ)))
    (he : env.embedResult = .ok qe) (hne : (qe.getD []).isEmpty = false)
    (hs : env.searchResult = .ok []) :
    query env q k =
      ({ answer := "No relevant documents found in the knowledge base. Please upload and process PDFs first."
       , sources := [], metadata := [] }, [PipelineCall.embed, PipelineCall.search]) ∧
    PipelineCall.generate ∉ (query env q k).2 := by
  have h1 : query env q k =
      ({ answer := "No relevant documents found in the knowledge base. Please upload and process PDFs first."
       , sources := [], metadata := [] }, [PipelineCall.embed, PipelineCall.search]) := by
    simp [query, hq, he, hne, hs]
  refine ⟨h1, ?_⟩
  rw [h1]
  decide

/-- Witness for C2 at a concrete environment with one query embedding
and an empty search result. -/
theorem c2_empty_search_diagnostic_witness :
    pyBlank "q" = false ∧
    (query ⟨Except.ok (some [[1]]), Except.ok [], Except.ok (some "x")⟩ "q" 5 =
      ({ answer := "No relevant documents found in the knowledge base. Please upload and process PDFs first."
       , sources := [], metadata := [] }, [PipelineCall.embed, PipelineCall.search]) ∧
     PipelineCall.generate ∉
       (query ⟨Except.ok (some [[1]]), Except.ok [], Except.ok (some "x")⟩ "q" 5).2) :=
  ⟨by decide,
   c2_empty_search_diagnostic ⟨Except.ok (some [[1]]), Except.ok [], Except.ok (some "x")⟩
     "q" 5 (by decide) (some [[1]]) rfl rfl rfl⟩

/-- C3: for every question that is empty or whitespace-only, `query`
returns the fixed validation diagnostic with empty sources and empty
metadata, and performs no collaborator call at all (neither embedding
provider, nor vector store, nor answer provider). -/
theorem c3_blank_question_validation (env : QueryEnv) (q : String) (k : Nat)
    (hq : pyBlank q = true) :
    query env q k =
      ({ answer := "Please provide a valid question.", sources := [], metadata := [] }, []) := by
  simp [query, hq]

/-- Witness for C3 at the empty question. -/
theorem c3_blank_question_validation_witness :
    pyBlank "" = true ∧
    query ⟨Except.ok none, Except.ok [], Except.ok none⟩ "" 5 =
      ({ answer := "Please provide a valid question.", sources := [], metadata := [] }, []) :=
  ⟨by decide,
   c3_blank_question_validation ⟨Except.ok none, Except.ok [], Except.ok none⟩ "" 5 (by decide)⟩

/-- C4 counterexample: the claim "the resulting similarity value always
lies in [0,1]" is false. A search result with the legal cosine distance
2 yields similarity 1 - 2 = -1 in the returned sources, and -1 is not in
[0,1]: the source performs no clamping. -/
theorem c4_similarity_range_cx :
    ((query ⟨Except.ok (some [[1]]), Except.ok [⟨"doc", some 2, [], some "id0"⟩],
        Except.ok (some "ans")⟩ "q" 5).1.sources.map SourcePassage.similarity) = [-1] ∧
    ¬ (0 : ℚ) ≤ -1 := by
  have hq : pyBlank "q" = false := by decide
  have hfa : pyFalsyOpt (some "ans") = false := by decide
  constructor
  · simp [query, hq, hfa, mkSourcePassage, pyRound3_neg_one]
  · norm_num

/-- C4 (amended): every source passage `query` builds from a search
result has similarity `1 - distance` when the distance is known and `0`
when it is `None`, rounded to 3 decimals; the value lies in [0,1]
whenever the known distance lies in [0,1], but no clamping is performed,
so distances outside [0,1] produce similarities outside [0,1]. -/
theorem c4_similarity_amended (env : QueryEnv) (q : String) (k : Nat)
    (hq : pyBlank q = false) (qe : Option (List (List ℚ)))
    (he : env.embedResult = .ok qe) (hne : (qe.getD []).isEmpty = false)
    (rs : List SearchResult) (hs : env.searchResult = .ok rs) (hrne : rs.isEmpty = false)
    (ans : Option String) (hg : env.generateResult = .ok ans) :
    (query env q k).1.sources = rs.map mkSourcePassage ∧
    (∀ r : SearchResult, ∀ d : ℚ, r.distance = some d →
      (mkSourcePassage r).similarity = pyRound3 (1 - d) ∧
      (0 ≤ d → d ≤ 1 → 0 ≤ (mkSourcePassage r).similarity ∧ (mkSourcePassage r).similarity ≤ 1)) ∧
    (∀ r : SearchResult, r.distance = none → (mkSourcePassage r).similarity = 0) := by
  refine ⟨?_, ?_, ?_⟩
  · cases hfa : pyFalsyOpt ans <;> simp [query, hq, he, hne, hs, hrne, hg, hfa]
  · intro r d hd
    have hsim : (mkSourcePassage r).similarity = pyRound3 (1 - d) := by
      simp [mkSourcePassage, hd]
    refine ⟨hsim, ?_⟩
    intro h0 h1
    rw [hsim]
    exact ⟨pyRound3_nonneg_of_nonneg (by linarith), pyRound3_le_one_of_le_one (by linarith)⟩
  · intro r hd
    simp [mkSourcePassage, hd, pyRound3_zero]

/-- Witness for the amended C4 at a concrete environment with one search
result of distance 1. -/
theorem c4_similarity_amended_witness :
    pyBlank "q" = false ∧
    ((query ⟨Except.ok (some [[1]]), Except.ok [⟨"doc", some 1, [], none⟩],
        Except.ok (some "ans")⟩ "q" 5).1.sources =
      [⟨"doc", some 1, [], none⟩].map mkSourcePassage ∧
    (∀ r : SearchResult, ∀ d : ℚ, r.distance = some d →
      (mkSourcePassage r).similarity = pyRound3 (1 - d) ∧
      (0 ≤ d → d ≤ 1 → 0 ≤ (mkSourcePassage r).similarity ∧ (mkSourcePassage r).similarity ≤ 1)) ∧
    (∀ r : SearchResult, r.distance = none → (mkSourcePassage r).similarity = 0)) :=
  ⟨by decide,
   c4_similarity_amended ⟨Except.ok (some [[1]]), Except.ok [⟨"doc", some 1, [], none⟩],
       Except.ok (some "ans")⟩ "q" 5 (by decide) (some [[1]]) rfl rfl
     [⟨"doc", some 1, [], none⟩] rfl rfl (some "ans") rfl⟩

/-- C5: every source passage `query` builds keeps the full document text
when it has at most 200 characters, and keeps the first 200 characters
followed by the ellipsis marker "..." when it is longer. -/
theorem c5_truncation (env : QueryEnv) (q : String) (k : Nat)
    (hq : pyBlank q = false) (qe : Option (List (List ℚ)))
    (he : env.embedResult = .ok qe) (hne : (qe.getD []).isEmpty = false)
    (rs : List SearchResult) (hs : env.searchResult = .ok rs) (hrne : rs.isEmpty = false)
    (ans : Option String) (hg : env.generateResult = .ok ans) :
    (query env q k).1.sources = rs.map mkSourcePassage ∧
    (∀ r : SearchResult, pyLen r.document ≤ 200 → (mkSourcePassage r).text = r.document) ∧
    (∀ r : SearchResult, 200 < pyLen r.document →
      (mkSourcePassage r).text = pyTake 200 r.document ++ "...") := by
  refine ⟨?_, ?_, ?_⟩
  · cases hfa : pyFalsyOpt ans <;> simp [query, hq, he, hne, hs, hrne, hg, hfa]
  · intro r hle
    simp only [mkSourcePassage]
    rw [if_neg (by omega)]
  · intro r hgt
    simp only [mkSourcePassage]
    rw [if_pos (by omega)]

/-- Witness for C5 at a concrete environment with one search result. -/
theorem c5_truncation_witness :
    pyBlank "q" = false ∧
    ((query ⟨Except.ok (some [[1]]), Except.ok [⟨"doc", some 1, [], none⟩],
        Except.ok (some "ans")⟩ "q" 5).1.sources =
      [⟨"doc", some 1, [], none⟩].map mkSourcePassage ∧
    (∀ r : SearchResult, pyLen r.document ≤ 200 → (mkSourcePassage r).text = r.document) ∧
    (∀ r : SearchResult, 200 < pyLen r.document →
      (mkSourcePassage r).text = pyTake 200 r.document ++ "...")) :=
  ⟨by decide,
   c5_truncation ⟨Except.ok (some [[1]]), Except.ok [⟨"doc", some 1, [], none⟩],
       Except.ok (some "ans")⟩ "q" 5 (by decide) (some [[1]]) rfl rfl
     [⟨"doc", some 1, [], none⟩] rfl rfl (some "ans") rfl⟩

/-- C6 counterexample: the claim fails for early-exit calls. A blank
question returns a result whose metadata mapping is empty, so it
contains neither num_sources nor top_k. -/
theorem c6_metadata_cx :
    (query ⟨Except.ok (some [[1]]), Except.ok [], Except.ok (some "a")⟩ "" 5).1.metadata = [] ∧
    alookup "num_sources"
      (query ⟨Except.ok (some [[1]]), Except.ok [], Except.ok (some "a")⟩ "" 5).1.metadata = none ∧
    alookup "top_k"
      (query ⟨Except.ok (some [[1]]), Except.ok [], Except.ok (some "a")⟩ "" 5).1.metadata = none := by
  decide

/-- C6 (amended): on the successful path - non-blank question, embedding
produced, non-empty search results, truthy generated answer - the
returned metadata contains num_sources equal to the length of the
returned sources and top_k equal to the configured top_k; every
early-exit or error result instead carries an empty metadata mapping. -/
theorem c6_metadata_amended (env : QueryEnv) (q : String) (k : Nat)
    (hq : pyBlank q = false) (qe : Option (List (List ℚ)))
    (he : env.embedResult = .ok qe) (hne : (qe.getD []).isEmpty = false)
    (rs : List SearchResult) (hs : env.searchResult = .ok rs) (hrne : rs.isEmpty = false)
    (ans : Option String) (hg : env.generateResult = .ok ans) (hfa : pyFalsyOpt ans = false) :
    alookup "num_sources" (query env q k).1.metadata = some (query env q k).1.sources.length ∧
    alookup "top_k" (query env q k).1.metadata = some k := by
  have h1 : query env q k =
      ({ answer := ans.getD ""
       , sources := rs.map mkSourcePassage
       , metadata := [("num_sources", (rs.map mkSourcePassage).length), ("top_k", k)] },
       [PipelineCall.embed, PipelineCall.search, PipelineCall.generate]) := by
    simp [query, hq, he, hne, hs, hrne, hg, hfa]
  rw [h1]
  refine ⟨?_, ?_⟩
  · simp [alookup]
  · simp [alookup, show ("num_sources" : String) ≠ "top_k" by decide]

/-- Witness for the amended C6 at a concrete successful call. -/
theorem c6_metadata_amended_witness :
    pyBlank "q" = false ∧ pyFalsyOpt (some "ans") = false ∧
    (alookup "num_sources"
      (query ⟨Except.ok (some [[1]]), Except.ok [⟨"doc", some 1, [], none⟩],
        Except.ok (some "ans")⟩ "q" 7).1.metadata =
      some (query ⟨Except.ok (some [[1]]), Except.ok [⟨"doc", some 1, [], none⟩],
        Except.ok (some "ans")⟩ "q" 7).1.sources.length ∧
    alookup "top_k"
      (query ⟨Except.ok (some [[1]]), Except.ok [⟨"doc", some 1, [], none⟩],
        Except.ok (some "ans")⟩ "q" 7).1.metadata = some 7) :=
  ⟨by decide, by decide,
   c6_metadata_amended ⟨Except.ok (some [[1]]), Except.ok [⟨"doc", some 1, [], none⟩],
       Except.ok (some "ans")⟩ "q" 7 (by decide) (some [[1]]) rfl rfl
     [⟨"doc", some 1, [], none⟩] rfl rfl (some "ans") rfl (by decide)⟩

/-- C7 counterexample: with the OpenAI path active and a local backend
configured (local_llm present, llm_type ollama), a failing remote call
makes `generate_answer` return `None` - not the local backend's answer,
which would have been "local answer". -/
theorem c7_no_local_fallback_cx :
    generate_answer ⟨true, true, true, some LLMType.ollama⟩
      ⟨fun _ => Except.error "boom", fun _ => Except.ok "local answer", fun _ => Except.ok "t"⟩
      "q" "c" = none ∧
    generateLocalAnswer ⟨true, true, true, some LLMType.ollama⟩
      ⟨fun _ => Except.error "boom", fun _ => Except.ok "local answer", fun _ => Except.ok "t"⟩
      "q" "c" = "local answer" ∧
    (none : Option String) ≠ some "local answer" := by
  refine ⟨by decide, by decide, by decide⟩

/-- C7 (amended): when the OpenAI path is active (use_openai set and a
client present), a remote-call failure is caught inside
`generate_answer`, which returns `None` regardless of any configured
local backend - no per-call fallback occurs; the local backend is
consulted only when the OpenAI path is inactive, in which case its
answer is returned (local failures having degraded to diagnostic
strings inside `generateLocalAnswer`). -/
theorem c7_remote_failure_amended (h : LLMHandler) (env : LLMEnv) (q c : String) :
    (∀ e, h.use_openai = true → h.openai_client = true →
      env.openaiContent (openaiPrompt q c) = .error e →
      generate_answer h env q c = none) ∧
    ((h.use_openai && h.openai_client) = false → h.local_llm = true →
      pyFalsyStr q = false → pyFalsyStr c = false →
      generate_answer h env q c = some (generateLocalAnswer h env q c)) := by
  constructor
  · intro e hu hc hoe
    cases hb : (pyFalsyStr q || pyFalsyStr c) <;>
      simp [generate_answer, hb, hu, hc, generateOpenaiAnswer, hoe]
  · intro hno hl hq hc2
    simp [generate_answer, hno, hl, hq, hc2]

/-- Witness for the amended C7: a remote failure with a configured local
backend yields `None`. -/
theorem c7_remote_failure_amended_witness :
    (⟨true, true, true, some LLMType.ollama⟩ : LLMHandler).use_openai = true ∧
    generate_answer ⟨true, true, true, some LLMType.ollama⟩
      ⟨fun _ => Except.error "down", fun _ => Except.ok "local", fun _ => Except.ok "t"⟩
      "q" "c" = none :=
  ⟨rfl,
   (c7_remote_failure_amended ⟨true, true, true, some LLMType.ollama⟩
     ⟨fun _ => Except.error "down", fun _ => Except.ok "local", fun _ => Except.ok "t"⟩
     "q" "c").1 "down" rfl rfl rfl⟩

/-- C8 counterexample: the instruction text of the OpenAI prompt and
that of the local prompt are not identical, and the two prompts differ
at a concrete question and context. -/
theorem c8_prompt_instruction_cx :
    openaiInstruction ≠ localInstruction ∧
    openaiPrompt "q" "c" ≠ localPrompt "q" "c" := by
  refine ⟨by decide, by decide⟩

set_option maxRecDepth 4096 in
/-- C8 (amended): both backend prompts consist of an instruction text
followed by the same Context/Question/Answer tail, but the instruction
texts differ: the OpenAI instruction is the local instruction extended
by a trailing space, a line break and the refusal-phrase directive,
which the local prompt lacks entirely. -/
theorem c8_prompt_instruction_amended (q c : String) :
    openaiPrompt q c = openaiInstruction ++ promptTail q c ∧
    localPrompt q c = localInstruction ++ promptTail q c ∧
    openaiInstruction = localInstruction ++ " \n" ++ refusalDirective ∧
    openaiInstruction ≠ localInstruction := by
  have h1 : ("Based on the following context, answer the question. \nIf the answer is not in the context, say \"I don\u0027t have enough information to answer this question based on the provided context.\"\n\nContext:\n" : String) = openaiInstruction ++ "\n\nContext:\n" := by
    decide
  have h2 : ("Based on the following context, answer the question.\n\nContext:\n" : String) =
      localInstruction ++ "\n\nContext:\n" := by
    decide
  refine ⟨?_, ?_, by decide, by decide⟩
  · unfold openaiPrompt promptTail
    rw [h1]
    simp [String.append_assoc]
  · unfold localPrompt promptTail
    rw [h2]
    simp [String.append_assoc]

theorem alookup_removeKey_self {α : Type} (name : String) (l : List (String × α)) :
    alookup name (removeKey name l) = none := by
  induction l with
  | nil => simp [removeKey, alookup]
  | cons p rest ih =>
    by_cases hp : p.1 = name
    · simp [removeKey, hp, ih]
    · simp [removeKey, alookup, hp, ih]

theorem alookup_removeKey_append {α : Type} (name : String) (v : α) (l : List (String × α)) :
    alookup name (removeKey name l ++ [(name, v)]) = some v := by
  induction l with
  | nil => simp [removeKey, alookup]
  | cons p rest ih =>
    by_cases hp : p.1 = name
    · simp [removeKey, hp, ih]
    · simp [removeKey, alookup, hp, ih]

theorem removeKey_removeKey_append {α : Type} (name : String) (v : α) (l : List (String × α)) :
    removeKey name (removeKey name l ++ [(name, v)]) = removeKey name l := by
  induction l with
  | nil => simp [removeKey]
  | cons p rest ih =>
    by_cases hp : p.1 = name
    · simp [removeKey, hp, ih]
    · simp [removeKey, hp, ih]

theorem clear_collection_of_exists (s : VectorStore) (recs : List ChromaRecord)
    (h : alookup s.collection_name s.client.collections = some recs) :
    clear_collection s =
      (⟨⟨removeKey s.collection_name s.client.collections ++ [(s.collection_name, [])]⟩,
        s.collection_name⟩, true) := by
  simp [clear_collection, chromaDeleteCollection, chromaGetOrCreate, h, alookup_removeKey_self]

/-- C9: on every store whose collection exists (as every state reached
by the source guarantees: initialization and each clear end with
get_or_create_collection), calling `clear_collection` twice in a row
returns `True` both times, leaves `get_collection_count` at 0 after each
call, and the second call leaves the state identical to the first
call's. -/
theorem c9_clear_idempotent (s : VectorStore) (recs : List ChromaRecord)
    (h : alookup s.collection_name s.client.collections = some recs) :
    (clear_collection s).2 = true ∧
    (clear_collection (clear_collection s).1).2 = true ∧
    get_collection_count (clear_collection s).1 = 0 ∧
    get_collection_count (clear_collection (clear_collection s).1).1 = 0 ∧
    (clear_collection (clear_collection s).1).1 = (clear_collection s).1 := by
  have h1 := clear_collection_of_exists s recs h
  have h2 := clear_collection_of_exists
    ⟨⟨removeKey s.collection_name s.client.collections ++ [(s.collection_name, [])]⟩,
      s.collection_name⟩ [] (alookup_removeKey_append _ _ _)
  refine ⟨?_, ?_, ?_, ?_, ?_⟩
  · rw [h1]
  · rw [h1]
    dsimp only
    rw [h2]
  · rw [h1]
    dsimp only
    simp [get_collection_count, alookup_removeKey_append]
  · rw [h1]
    dsimp only
    rw [h2]
    dsimp only
    simp [get_collection_count, alookup_removeKey_append]
  · rw [h1]
    dsimp only
    rw [h2]
    dsimp only
    simp [removeKey_removeKey_append]

/-- Witness for C9 at a concrete store holding one record. -/
theorem c9_clear_idempotent_witness :
    alookup "smartbookqa"
      (VectorStore.mk ⟨[("smartbookqa", [⟨"doc_0", [1], "hello", []⟩])]⟩
        "smartbookqa").client.collections = some [⟨"doc_0", [1], "hello", []⟩] ∧
    ((clear_collection (VectorStore.mk ⟨[("smartbookqa", [⟨"doc_0", [1], "hello", []⟩])]⟩
        "smartbookqa")).2 = true ∧
     (clear_collection (clear_collection (VectorStore.mk
        ⟨[("smartbookqa", [⟨"doc_0", [1], "hello", []⟩])]⟩ "smartbookqa")).1).2 = true ∧
     get_collection_count (clear_collection (VectorStore.mk
        ⟨[("smartbookqa", [⟨"doc_0", [1], "hello", []⟩])]⟩ "smartbookqa")).1 = 0 ∧
     get_collection_count (clear_collection (clear_collection (VectorStore.mk
        ⟨[("smartbookqa", [⟨"doc_0", [1], "hello", []⟩])]⟩ "smartbookqa")).1).1 = 0 ∧
     (clear_collection (clear_collection (VectorStore.mk
        ⟨[("smartbookqa", [⟨"doc_0", [1], "hello", []⟩])]⟩ "smartbookqa")).1).1 =
       (clear_collection (VectorStore.mk
        ⟨[("smartbookqa", [⟨"doc_0", [1], "hello", []⟩])]⟩ "smartbookqa")).1) :=
  ⟨by decide,
   c9_clear_idempotent (VectorStore.mk ⟨[("smartbookqa", [⟨"doc_0", [1], "hello", []⟩])]⟩
     "smartbookqa") [⟨"doc_0", [1], "hello", []⟩] (by decide)⟩

/-- C10: `add_documents` with `ids` omitted always attaches the ids
`doc_0 .. doc_{n-1}` (`defaultIds n`), a function of the batch size
alone, independent of the store's current contents; the pipeline's
ingestion instead uses `pipelineIds count n = doc_count ..`, which
coincides with `defaultIds` only at count 0. Consequently two successive
direct `add_documents` calls without explicit ids attach the same id
strings to different records, shown concretely in the last two
conjuncts. -/
theorem c10_default_ids (s : VectorStore) (recs : List ChromaRecord)
    (texts : List String) (embs : List (List ℚ))
    (h : alookup s.collection_name s.client.collections = some recs)
    (hne : texts.isEmpty = false) (hene : embs.isEmpty = false)
    (hlen : texts.length = embs.length) :
    add_documents s texts embs none none =
      ({ s with client := ⟨setKey s.collection_name
          (recs ++ zipRecords (defaultIds texts.length) embs texts (defaultMetadatas texts))
          s.client.collections⟩ }, true) ∧
    (∀ m, defaultIds m = pipelineIds 0 m) ∧
    ((alookup "c" (add_documents
        (add_documents ⟨⟨[("c", [])]⟩, "c"⟩ ["a"] [[1]] none none).1
        ["b"] [[2]] none none).1.client.collections).getD []).map ChromaRecord.id =
      ["doc_0", "doc_0"] ∧
    ((alookup "c" (add_documents_to_knowledge_base ⟨Except.ok (some [[2]])⟩
        ⟨⟨[("c", [⟨"doc_0", [1], "a", []⟩])]⟩, "c"⟩
        ["b"] none).1.client.collections).getD []).map ChromaRecord.id =
      ["doc_0", "doc_1"] := by
  refine ⟨?_, ?_, by decide, by decide⟩
  · simp [add_documents, hne, hene, hlen, chromaCollectionAdd, h]
  · intro m
    simp [defaultIds, pipelineIds]

/-- Witness for C10 at a one-element batch against a store already
holding one record. -/
theorem c10_default_ids_witness :
    (["b"] : List String).isEmpty = false ∧
    (add_documents ⟨⟨[("c", [⟨"doc_0", [1], "a", []⟩])]⟩, "c"⟩ ["b"] [[2]] none none =
      ({ client := ⟨setKey "c"
          ([⟨"doc_0", [1], "a", []⟩] ++
            zipRecords (defaultIds (["b"] : List String).length) [[2]] ["b"]
              (defaultMetadatas ["b"]))
          [("c", [⟨"doc_0", [1], "a", []⟩])]⟩, collection_name := "c" }, true) ∧
    (∀ m, defaultIds m = pipelineIds 0 m) ∧
    ((alookup "c" (add_documents
        (add_documents ⟨⟨[("c", [])]⟩, "c"⟩ ["a"] [[1]] none none).1
        ["b"] [[2]] none none).1.client.collections).getD []).map ChromaRecord.id =
      ["doc_0", "doc_0"] ∧
    ((alookup "c" (add_documents_to_knowledge_base ⟨Except.ok (some [[2]])⟩
        ⟨⟨[("c", [⟨"doc_0", [1], "a", []⟩])]⟩, "c"⟩
        ["b"] none).1.client.collections).getD []).map ChromaRecord.id =
      ["doc_0", "doc_1"]) :=
  ⟨rfl,
   c10_default_ids ⟨⟨[("c", [⟨"doc_0", [1], "a", []⟩])]⟩, "c"⟩ [⟨"doc_0", [1], "a", []⟩]
     ["b"] [[2]] (by decide) rfl rfl rfl⟩

end SmartBookQA
